import Mathlib

set_option linter.unusedVariables false

/-!
Verification of the borg-tools-mvp backend CV endpoints
(`src/backend/src/api/v1/endpoints/cv.py`) against its specification.

Part 1: shallow embedding of the code as it stands.  The handlers are
translated directly from the Python source: `generate_cv` builds a mock
response and schedules a background task, `get_cv` and `download_cv`
unconditionally raise HTTP 501, `list_cvs` returns an empty list and
`delete_cv` returns a success message without touching any state.
-/

namespace BorgTools

/-- UUIDs are opaque identifiers; we model `uuid4()` as drawing from a
fresh counter carried in the server state. -/
abbrev UUID := Nat

/-- `CVGenerationRequest` (pydantic model, cv.py lines 17-23).
Field constraints are checked separately by `validRequest` below, the way
FastAPI validates the body before the handler runs. -/
structure CVGenerationRequest where
  github_username : String
  template : String
  include_linkedin : Bool
  linkedin_url : Option String
deriving DecidableEq, Repr

/-- `github_username: Field(..., min_length=1, max_length=39)`. -/
def validGithubUsername (s : String) : Bool :=
  1 ≤ s.length && s.length ≤ 39

/-- `template: Field(default="neon-tech", pattern="^(neon-tech|minimal|enterprise)$")`.
The pattern is anchored on both sides, so it matches exactly the three
template names. -/
def templatePatternMatch (s : String) : Bool :=
  s == "neon-tech" || s == "minimal" || s == "enterprise"

/-- Pydantic validation of the request body: both field constraints hold.
(`linkedin_url` is a plain `Optional[str]` with no constraint.) -/
def validRequest (r : CVGenerationRequest) : Bool :=
  validGithubUsername r.github_username && templatePatternMatch r.template

/-- `CVResponse` (cv.py lines 25-35). -/
structure CVResponse where
  id : UUID
  status : String
  github_username : String
  template : String
  download_url : Option String
  share_url : Option String
  created_at : String
  expires_at : Option String
  error_message : Option String
deriving DecidableEq, Repr

/-- `CVListResponse` (cv.py lines 37-42).  `page`/`per_page` are Python
ints and may be negative, hence `Int`. -/
structure CVListResponse where
  cvs : List CVResponse
  total : Nat
  page : Int
  per_page : Int
deriving DecidableEq, Repr

/-- A task queued via `background_tasks.add_task(generate_cv_task, cv_id,
request, user_id)`: the argument tuple it will be invoked with. -/
structure BackgroundTask where
  cv_id : UUID
  request : CVGenerationRequest
  user_id : String
deriving DecidableEq, Repr

/-- A persisted job record in the database the endpoints' TODO comments
refer to.  The stub code never creates, reads or deletes any. -/
structure JobRecord where
  id : UUID
  owner_id : String
  status : String
deriving DecidableEq, Repr

/-- Server-side state visible to the endpoints: the database of job
records, the queue of scheduled background tasks, and the fresh-UUID
source. -/
structure ServerState where
  jobs : List JobRecord
  tasks : List BackgroundTask
  nextUuid : Nat
deriving DecidableEq, Repr

/-- `HTTPException(status_code=..., detail=...)`. -/
structure HTTPError where
  status_code : Nat
  detail : String
deriving DecidableEq, Repr

/-- `generate_cv_task` (cv.py lines 46-74).  Its body only emits log
lines (the generation pipeline is a TODO comment), so it leaves the
server state unchanged. -/
def generate_cv_task (cv_id : UUID) (request : CVGenerationRequest)
    (user_id : String) (s : ServerState) : ServerState :=
  s

/-- `generate_cv` (cv.py lines 77-107), the handler body after FastAPI
has validated the request.  It hardcodes `user_id = "mock-user-id"`,
draws a fresh UUID, schedules the background task, and returns a
`CVResponse` with status `"generating"` and the constant `created_at`.
The route decorator sets no `status_code`, so FastAPI replies HTTP 200. -/
def generate_cv (request : CVGenerationRequest) (s : ServerState) :
    Nat × CVResponse × ServerState :=
  let user_id := "mock-user-id"
  let cv_id := s.nextUuid
  let s' : ServerState :=
    { s with
      nextUuid := s.nextUuid + 1
      tasks := s.tasks ++ [⟨cv_id, request, user_id⟩] }
  (200,
   { id := cv_id
     status := "generating"
     github_username := request.github_username
     template := request.template
     download_url := none
     share_url := none
     created_at := "2024-01-01T00:00:00Z"
     expires_at := none
     error_message := none },
   s')

/-- Outcome of `POST /cv/generate` as seen by the client. -/
inductive PostGenerateBody
  | ok (resp : CVResponse)
  | validationFailed
deriving DecidableEq, Repr

/-- The `POST /cv/generate` route: FastAPI validates the body against
`CVGenerationRequest` (422 on failure, handler not invoked), then calls
`generate_cv`.  The `requester` is whoever sent the request; the handler
ignores authentication entirely (`TODO: Get user from JWT token`), which
is why `requester` is unused. -/
def post_generate (request : CVGenerationRequest) (requester : String)
    (s : ServerState) : Nat × PostGenerateBody × ServerState :=
  if validRequest request then
    let r := generate_cv request s
    (r.1, .ok r.2.1, r.2.2)
  else
    (422, .validationFailed, s)

/-- `get_cv` (cv.py lines 110-121): raises HTTP 501 for every id,
without reading any state. -/
def get_cv (cv_id : UUID) : HTTPError :=
  ⟨501, "CV retrieval not implemented yet"⟩

/-- `list_cvs` (cv.py lines 124-138): returns an empty list and total 0
for every page request, consulting no store and no owner. -/
def list_cvs (page : Int) (per_page : Int) : CVListResponse :=
  { cvs := [], total := 0, page := page, per_page := per_page }

/-- `delete_cv` (cv.py lines 141-150): logs and returns
`{"message": "CV deleted successfully"}` for every id; the state passes
through untouched (all three TODOs — permissions, storage, database —
are unimplemented). -/
def delete_cv (cv_id : UUID) (s : ServerState) : Nat × String × ServerState :=
  (200, "CV deleted successfully", s)

/-- `download_cv` (cv.py lines 153-163): raises HTTP 501 for every id. -/
def download_cv (cv_id : UUID) : HTTPError :=
  ⟨501, "CV download not implemented yet"⟩

/-!
Part 2: the job-orchestration subsystem, modelled from the spec.

The backend source declares this subsystem but does not contain it:
`generate_cv_task` lists the pipeline steps only as TODO comments, and
the repository's tests (`tests/api/v1/test_cv.py`) patch
`background_cv_generation`, `update_job_status`, `get_cv_job` and
`check_user_rate_limit` — none of which exist under `src/`.  The
definitions below are therefore modelled from the spec's words
(data model, Pipeline Executor protocol, Rate Limiter contract).
-/

/-- Modelled from the spec: the missing job state machine.  Status is one
of `queued | processing | completed | failed`. -/
inductive JobStatus
  | queued
  | processing
  | completed
  | failed
deriving DecidableEq, Repr

/-- A status is terminal when it is `completed` or `failed`. -/
def terminalStatus : JobStatus → Bool
  | .completed => true
  | .failed => true
  | _ => false

/-- Modelled from the spec: the fixed ordered pipeline step names
`fetch_source_data → generate_content → render_document → store_artifact`,
absent from the backend source (TODO comments in `generate_cv_task`). -/
inductive StepName
  | fetch_source_data
  | generate_content
  | render_document
  | store_artifact
deriving DecidableEq, Repr

/-- Modelled from the spec: a structured failure "capturing the step name
and underlying cause". -/
structure StepError where
  step : StepName
  cause : String
deriving DecidableEq, Repr

/-- Modelled from the spec: the Job record of the missing job store —
id, owner, status, progress, current step, validated input, artifact
reference (present only when completed) and structured error (present
only when failed). -/
structure SpecJob where
  id : Nat
  owner_id : String
  status : JobStatus
  progress : Nat
  current_step : Option StepName
  input : String
  result_ref : Option Nat
  error : Option StepError
deriving DecidableEq, Repr

/-- Modelled from the spec: `create(input, owner_id) -> Job` with status
`queued`; no result reference and no error are set at creation. -/
def SpecJob.create (id : Nat) (owner : String) (input : String) : SpecJob :=
  { id := id
    owner_id := owner
    status := .queued
    progress := 0
    current_step := none
    input := input
    result_ref := none
    error := none }

/-- Modelled from the spec: the external collaborators the Pipeline
Executor calls, one per step, each returning an output or a typed
failure.  Intermediate payloads (profile data, generated content,
rendered document, artifact reference) are opaque tokens. -/
structure Collaborators where
  fetch : String → Except String Nat
  generate : Nat → Except String Nat
  render : Nat → Except String Nat
  store : Nat → Except String Nat

/-- Transition a job to `failed` with the structured error for the step
that failed; `current_step` is cleared (it is null unless processing). -/
def failJob (j : SpecJob) (s : StepName) (cause : String) : SpecJob :=
  { j with status := .failed, current_step := none, error := some ⟨s, cause⟩ }

/-- Outcome of one pipeline execution: the final job record, the
artifact storage after the run, the steps that actually executed (in
order), and the trace of job states visited (initial state included). -/
structure PipelineOutcome where
  job : SpecJob
  artifacts : List Nat
  executed : List StepName
  trace : List SpecJob
deriving Repr

/-- Modelled from the spec: the Pipeline Executor protocol, absent from
the backend source.  It transitions the job `queued → processing`, runs
the four steps in order, updates `progress` by even split (25/50/75/100)
and `current_step` after each step, stops at the first failing step with
a structured error and stores no artifact in that case, and on full
success finalizes `completed` with `result_ref` set, `progress = 100`,
and the artifact stored. -/
def runPipeline (c : Collaborators) (j0 : SpecJob) (artifacts : List Nat) :
    PipelineOutcome :=
  let j1 := { j0 with status := JobStatus.processing,
                      current_step := some StepName.fetch_source_data }
  match c.fetch j0.input with
  | .error e =>
      let jf := failJob j1 .fetch_source_data e
      ⟨jf, artifacts, [.fetch_source_data], [j0, j1, jf]⟩
  | .ok profile =>
      let j2 := { j1 with progress := 25,
                          current_step := some StepName.generate_content }
      match c.generate profile with
      | .error e =>
          let jf := failJob j2 .generate_content e
          ⟨jf, artifacts, [.fetch_source_data, .generate_content],
            [j0, j1, j2, jf]⟩
      | .ok content =>
          let j3 := { j2 with progress := 50,
                              current_step := some StepName.render_document }
          match c.render content with
          | .error e =>
              let jf := failJob j3 .render_document e
              ⟨jf, artifacts,
                [.fetch_source_data, .generate_content, .render_document],
                [j0, j1, j2, j3, jf]⟩
          | .ok doc =>
              let j4 := { j3 with progress := 75,
                                  current_step := some StepName.store_artifact }
              match c.store doc with
              | .error e =>
                  let jf := failJob j4 .store_artifact e
                  ⟨jf, artifacts,
                    [.fetch_source_data, .generate_content, .render_document,
                     .store_artifact],
                    [j0, j1, j2, j3, j4, jf]⟩
              | .ok ref =>
                  let jc := { j4 with status := JobStatus.completed,
                                      progress := 100,
                                      current_step := none,
                                      result_ref := some ref }
                  ⟨jc, artifacts ++ [ref],
                    [.fetch_source_data, .generate_content, .render_document,
                     .store_artifact],
                    [j0, j1, j2, j3, j4, jc]⟩

/-- The result/error exclusivity invariant: in a terminal status exactly
one of `result_ref`/`error` is set; in a non-terminal status neither
is. -/
def resultErrorOk (j : SpecJob) : Bool :=
  if terminalStatus j.status then
    j.result_ref.isSome != j.error.isSome
  else
    !j.result_ref.isSome && !j.error.isSome

/-- Modelled from the spec: one per-owner fixed rate-limit window
(`limit`, `remaining`, `reset_at`); the Rate Limiter is absent from the
backend source (tests patch a nonexistent `check_user_rate_limit`). -/
structure RateLimitWindow where
  limit : Nat
  remaining : Nat
  reset_at : Nat
deriving DecidableEq, Repr

/-- The decision returned by an admission check: `allowed` plus the
`{limit, remaining, reset_at}` triple reported to the client. -/
structure RateLimitDecision where
  allowed : Bool
  limit : Nat
  remaining : Nat
  reset_at : Nat
deriving DecidableEq, Repr

/-- Modelled from the spec: `checkAndConsume(owner_id)` over the owner's
hourly and daily windows, evaluated independently; the request is
allowed only if both have remaining capacity, in which case both are
consumed atomically; on denial neither window changes. -/
def checkAndConsume (hw dw : RateLimitWindow) :
    RateLimitDecision × RateLimitWindow × RateLimitWindow :=
  if hw.remaining = 0 then
    (⟨false, hw.limit, hw.remaining, hw.reset_at⟩, hw, dw)
  else if dw.remaining = 0 then
    (⟨false, dw.limit, dw.remaining, dw.reset_at⟩, hw, dw)
  else
    (⟨true, hw.limit, hw.remaining - 1, hw.reset_at⟩,
     { hw with remaining := hw.remaining - 1 },
     { dw with remaining := dw.remaining - 1 })

/-- HTTP-level outcome of a submission in the spec model: `202` with the
new job's id and initial status, or `429` carrying
`{limit, remaining, reset_at}`. -/
inductive SubmitResult
  | accepted (job_id : Nat) (status : JobStatus)
  | rateLimited (limit : Nat) (remaining : Nat) (reset_at : Nat)
deriving DecidableEq, Repr

/-- Modelled from the spec: the Submission API flow, absent from the
backend source — consult the Rate Limiter, on success create the job
(status `queued`) and return its id and status; on denial return the
rate-limit triple, create no job, and consume no quota. -/
def specSubmit (owner : String) (input : String) (hw dw : RateLimitWindow)
    (jobs : List SpecJob) (nextId : Nat) :
    SubmitResult × RateLimitWindow × RateLimitWindow × List SpecJob × Nat :=
  let r := checkAndConsume hw dw
  if r.1.allowed then
    (.accepted nextId .queued, r.2.1, r.2.2,
     jobs ++ [SpecJob.create nextId owner input], nextId + 1)
  else
    (.rateLimited r.1.limit r.1.remaining r.1.reset_at, hw, dw, jobs, nextId)

/-!
Part 3: theorems, one per claim.
-/

/-- Concrete collaborators for which every pipeline step succeeds. -/
def allOkCollaborators : Collaborators :=
  ⟨fun _ => .ok 1, fun _ => .ok 2, fun _ => .ok 3, fun _ => .ok 4⟩

/-- Concrete collaborators whose data-fetch step fails. -/
def fetchFailsCollaborators : Collaborators :=
  ⟨fun _ => .error "GitHub API rate limit exceeded",
   fun _ => .ok 2, fun _ => .ok 3, fun _ => .ok 4⟩

/-- C1: evaluating the submission endpoint at a concrete valid request
(`octocat`, template `minimal`) on a fresh server: the HTTP status is
200 (not 202), the body's status is `"generating"` (neither `"queued"`
nor `"processing"`), and the set of job records afterwards is still
empty — no job record exists after the call. -/
theorem generate_cv_http200_generating_no_record :
    (post_generate ⟨"octocat", "minimal", false, none⟩ "user-123" ⟨[], [], 0⟩).1 = 200 ∧
    (post_generate ⟨"octocat", "minimal", false, none⟩ "user-123" ⟨[], [], 0⟩).2.1 =
      .ok ⟨0, "generating", "octocat", "minimal", none, none,
           "2024-01-01T00:00:00Z", none, none⟩ ∧
    (post_generate ⟨"octocat", "minimal", false, none⟩ "user-123" ⟨[], [], 0⟩).2.2.jobs = [] := by
  refine ⟨rfl, ?_, rfl⟩
  rfl

/-- C2: `get_cv` answers HTTP 501 for every job id — in particular for
id 12345 the status code is 501, never the claimed 404, 403 or 200. -/
theorem get_cv_always_501 :
    get_cv 12345 = ⟨501, "CV retrieval not implemented yet"⟩ ∧
    (get_cv 12345).status_code ≠ 404 ∧
    (get_cv 12345).status_code ≠ 403 ∧
    (get_cv 12345).status_code ≠ 200 := by
  refine ⟨rfl, ?_, ?_, ?_⟩ <;> decide

/-- C3: `download_cv` answers HTTP 501 for every job id — in particular
for id 12345 the status code is 501, never the claimed 200 or 409. -/
theorem download_cv_always_501 :
    download_cv 12345 = ⟨501, "CV download not implemented yet"⟩ ∧
    (download_cv 12345).status_code ≠ 200 ∧
    (download_cv 12345).status_code ≠ 409 := by
  refine ⟨rfl, ?_, ?_⟩ <;> decide

/-- C4: in the spec-modelled pipeline, every job state visited during a
run started from a freshly created job satisfies the exclusivity
invariant: a terminal state has exactly one of `result_ref`/`error` set,
a non-terminal state has neither. -/
theorem pipeline_result_error_invariant (c : Collaborators) (id : Nat)
    (owner input : String) (artifacts : List Nat) (j : SpecJob)
    (hj : j ∈ (runPipeline c (SpecJob.create id owner input) artifacts).trace) :
    resultErrorOk j = true := by
  rcases h1 : c.fetch input with e1 | v1
  · simp [runPipeline, SpecJob.create, h1] at hj
    rcases hj with rfl | rfl | rfl <;>
      simp [resultErrorOk, terminalStatus, failJob, SpecJob.create]
  · rcases h2 : c.generate v1 with e2 | v2
    · simp [runPipeline, SpecJob.create, h1, h2] at hj
      rcases hj with rfl | rfl | rfl | rfl <;>
        simp [resultErrorOk, terminalStatus, failJob, SpecJob.create]
    · rcases h3 : c.render v2 with e3 | v3
      · simp [runPipeline, SpecJob.create, h1, h2, h3] at hj
        rcases hj with rfl | rfl | rfl | rfl | rfl <;>
          simp [resultErrorOk, terminalStatus, failJob, SpecJob.create]
      · rcases h4 : c.store v3 with e4 | v4
        · simp [runPipeline, SpecJob.create, h1, h2, h3, h4] at hj
          rcases hj with rfl | rfl | rfl | rfl | rfl | rfl <;>
            simp [resultErrorOk, terminalStatus, failJob, SpecJob.create]
        · simp [runPipeline, SpecJob.create, h1, h2, h3, h4] at hj
          rcases hj with rfl | rfl | rfl | rfl | rfl | rfl <;>
            simp [resultErrorOk, terminalStatus, failJob, SpecJob.create]

/-- C4 witness: the invariant holds at the final state of a concrete
fully successful run. -/
theorem pipeline_result_error_invariant_witness :
    resultErrorOk (runPipeline allOkCollaborators
      (SpecJob.create 1 "user-1" "octocat") []).job = true :=
  pipeline_result_error_invariant allOkCollaborators 1 "user-1" "octocat" [] _
    (by decide)

/-- The ordered prefix of pipeline steps that has executed once step
`sn` has run: every step up to and including `sn`. -/
def stepsThrough : StepName → List StepName
  | .fetch_source_data => [.fetch_source_data]
  | .generate_content => [.fetch_source_data, .generate_content]
  | .render_document =>
      [.fetch_source_data, .generate_content, .render_document]
  | .store_artifact =>
      [.fetch_source_data, .generate_content, .render_document,
       .store_artifact]

/-- Step `sn` fails with cause `e` during the run on `input`: every
earlier step's collaborator succeeds and `sn`'s collaborator returns the
failure.  (Steps run strictly in order, so this is exactly "the pipeline
execution has a failing step, namely `sn`".) -/
def stepFails (c : Collaborators) (input : String) :
    StepName → String → Prop
  | .fetch_source_data, e => c.fetch input = .error e
  | .generate_content, e =>
      ∃ p, c.fetch input = .ok p ∧ c.generate p = .error e
  | .render_document, e =>
      ∃ p g, c.fetch input = .ok p ∧ c.generate p = .ok g ∧
        c.render g = .error e
  | .store_artifact, e =>
      ∃ p g d, c.fetch input = .ok p ∧ c.generate p = .ok g ∧
        c.render g = .ok d ∧ c.store d = .error e

/-- C5: in the spec-modelled pipeline, whichever step fails — fetch,
generate, render or store — the run ends `failed` with a structured
error naming that step and its cause, no result reference is set, the
steps that executed are exactly those up to the failing one (no later
step runs), and the artifact storage is unchanged (no partial artifact
stored). -/
theorem pipeline_step_failure (c : Collaborators) (id : Nat)
    (owner input : String) (artifacts : List Nat) (sn : StepName)
    (e : String) (h : stepFails c input sn e) :
    (runPipeline c (SpecJob.create id owner input) artifacts).job.status = .failed ∧
    (runPipeline c (SpecJob.create id owner input) artifacts).job.error =
      some ⟨sn, e⟩ ∧
    (runPipeline c (SpecJob.create id owner input) artifacts).job.result_ref = none ∧
    (runPipeline c (SpecJob.create id owner input) artifacts).executed =
      stepsThrough sn ∧
    (runPipeline c (SpecJob.create id owner input) artifacts).artifacts = artifacts := by
  cases sn with
  | fetch_source_data =>
      have h1 : c.fetch input = .error e := h
      refine ⟨?_, ?_, ?_, ?_, ?_⟩ <;>
        simp [runPipeline, SpecJob.create, h1, failJob, stepsThrough]
  | generate_content =>
      obtain ⟨p, h1, h2⟩ := h
      refine ⟨?_, ?_, ?_, ?_, ?_⟩ <;>
        simp [runPipeline, SpecJob.create, h1, h2, failJob, stepsThrough]
  | render_document =>
      obtain ⟨p, g, h1, h2, h3⟩ := h
      refine ⟨?_, ?_, ?_, ?_, ?_⟩ <;>
        simp [runPipeline, SpecJob.create, h1, h2, h3, failJob, stepsThrough]
  | store_artifact =>
      obtain ⟨p, g, d, h1, h2, h3, h4⟩ := h
      refine ⟨?_, ?_, ?_, ?_, ?_⟩ <;>
        simp [runPipeline, SpecJob.create, h1, h2, h3, h4, failJob,
          stepsThrough]

/-- C5 witness: a concrete run whose `fetch_source_data` step fails. -/
theorem pipeline_step_failure_witness :
    (runPipeline fetchFailsCollaborators (SpecJob.create 1 "user-1" "octocat") []).job.status = .failed ∧
    (runPipeline fetchFailsCollaborators (SpecJob.create 1 "user-1" "octocat") []).job.error =
      some ⟨.fetch_source_data, "GitHub API rate limit exceeded"⟩ ∧
    (runPipeline fetchFailsCollaborators (SpecJob.create 1 "user-1" "octocat") []).job.result_ref = none ∧
    (runPipeline fetchFailsCollaborators (SpecJob.create 1 "user-1" "octocat") []).executed =
      stepsThrough .fetch_source_data ∧
    (runPipeline fetchFailsCollaborators (SpecJob.create 1 "user-1" "octocat") []).artifacts = [] :=
  pipeline_step_failure fetchFailsCollaborators 1 "user-1" "octocat" []
    .fetch_source_data "GitHub API rate limit exceeded" rfl

/-- C6: in the spec-modelled submission flow, when the owner's hourly or
daily window has no remaining quota the result is a 429 rate-limit
denial carrying a `{limit, remaining, reset_at}` triple with remaining
0, both windows are unchanged (no quota consumed), no job is created
and the id source is untouched. -/
theorem specSubmit_denied (owner input : String) (hw dw : RateLimitWindow)
    (jobs : List SpecJob) (nextId : Nat)
    (h : hw.remaining = 0 ∨ dw.remaining = 0) :
    (∃ l t, (specSubmit owner input hw dw jobs nextId).1 = .rateLimited l 0 t) ∧
    (specSubmit owner input hw dw jobs nextId).2.1 = hw ∧
    (specSubmit owner input hw dw jobs nextId).2.2.1 = dw ∧
    (specSubmit owner input hw dw jobs nextId).2.2.2.1 = jobs ∧
    (specSubmit owner input hw dw jobs nextId).2.2.2.2 = nextId := by
  by_cases h1 : hw.remaining = 0
  · refine ⟨⟨hw.limit, hw.reset_at, ?_⟩, ?_, ?_, ?_, ?_⟩ <;>
      simp [specSubmit, checkAndConsume, h1]
  · have h2 : dw.remaining = 0 := h.resolve_left h1
    refine ⟨⟨dw.limit, dw.reset_at, ?_⟩, ?_, ?_, ?_, ?_⟩ <;>
      simp [specSubmit, checkAndConsume, h1, h2]

/-- C6 witness: a concrete denial with the hourly window exhausted. -/
theorem specSubmit_denied_witness :
    (∃ l t, (specSubmit "user_123" "octocat" ⟨5, 0, 3600⟩ ⟨20, 7, 86400⟩ [] 0).1 =
      .rateLimited l 0 t) ∧
    (specSubmit "user_123" "octocat" ⟨5, 0, 3600⟩ ⟨20, 7, 86400⟩ [] 0).2.1 = ⟨5, 0, 3600⟩ ∧
    (specSubmit "user_123" "octocat" ⟨5, 0, 3600⟩ ⟨20, 7, 86400⟩ [] 0).2.2.1 = ⟨20, 7, 86400⟩ ∧
    (specSubmit "user_123" "octocat" ⟨5, 0, 3600⟩ ⟨20, 7, 86400⟩ [] 0).2.2.2.1 = [] ∧
    (specSubmit "user_123" "octocat" ⟨5, 0, 3600⟩ ⟨20, 7, 86400⟩ [] 0).2.2.2.2 = 0 :=
  specSubmit_denied "user_123" "octocat" ⟨5, 0, 3600⟩ ⟨20, 7, 86400⟩ [] 0
    (Or.inl rfl)

/-- C7: a request whose template does not match the enumerated pattern
is rejected by validation: the endpoint answers 422, the handler is not
invoked, and the server state — job records included — is unchanged, so
no job is created. -/
theorem post_generate_rejects_unknown_template (request : CVGenerationRequest)
    (requester : String) (s : ServerState)
    (h : templatePatternMatch request.template = false) :
    post_generate request requester s = (422, .validationFailed, s) := by
  simp [post_generate, validRequest, h]

/-- C7 witness: the concrete template `"not-a-real-template"` from the
spec's scenario is rejected with 422 on a fresh server. -/
theorem post_generate_rejects_unknown_template_witness :
    post_generate ⟨"octocat", "not-a-real-template", false, none⟩ "user-123" ⟨[], [], 0⟩ =
      (422, .validationFailed, ⟨[], [], 0⟩) :=
  post_generate_rejects_unknown_template
    ⟨"octocat", "not-a-real-template", false, none⟩ "user-123" ⟨[], [], 0⟩
    (by decide)

/-- C8: for every page and page size, `list_cvs` returns the empty list
with total 0 — it consults no job store and no owner, so an owner's
stored jobs are never returned. -/
theorem list_cvs_always_empty (page per_page : Int) :
    list_cvs page per_page = ⟨[], 0, page, per_page⟩ := rfl

/-- C9: for every cv id and every server state, `delete_cv` returns 200
with the message `"CV deleted successfully"` and the state — job records
and artifacts alike — is returned unchanged; no ownership or existence
check occurs. -/
theorem delete_cv_no_op (cv_id : UUID) (s : ServerState) :
    delete_cv cv_id s = (200, "CV deleted successfully", s) := rfl

/-- C10: for every request passing validation, every requester and every
server state, the endpoint answers with a response whose status is
`"generating"`, whose `created_at` is the constant
`"2024-01-01T00:00:00Z"`, whose `download_url`, `share_url`,
`expires_at` and `error_message` are all unset, and the scheduled
background task carries the fixed owner `"mock-user-id"` regardless of
the requester. -/
theorem generate_cv_mock_response (request : CVGenerationRequest)
    (requester : String) (s : ServerState)
    (h : validRequest request = true) :
    post_generate request requester s =
      (200,
       .ok { id := s.nextUuid
             status := "generating"
             github_username := request.github_username
             template := request.template
             download_url := none
             share_url := none
             created_at := "2024-01-01T00:00:00Z"
             expires_at := none
             error_message := none },
       { s with nextUuid := s.nextUuid + 1
                tasks := s.tasks ++ [⟨s.nextUuid, request, "mock-user-id"⟩] }) := by
  simp [post_generate, h, generate_cv]

/-- C10 witness: a concrete valid request, evaluated. -/
theorem generate_cv_mock_response_witness :
    post_generate ⟨"octocat", "neon-tech", false, none⟩ "real-user-42" ⟨[], [], 5⟩ =
      (200,
       .ok ⟨5, "generating", "octocat", "neon-tech", none, none,
            "2024-01-01T00:00:00Z", none, none⟩,
       ⟨[], [⟨5, ⟨"octocat", "neon-tech", false, none⟩, "mock-user-id"⟩], 6⟩) :=
  generate_cv_mock_response ⟨"octocat", "neon-tech", false, none⟩ "real-user-42"
    ⟨[], [], 5⟩ (by decide)

end BorgTools
